import Mathlib

/-!
Verification of the read-buf crate: `BorrowBuf`/`BorrowCursor` (src/lib.rs)
and the `OwnedBuf`/`OwnedCursor` implementation for `Vec<u8>` (src/owned.rs).

Byte storage is modelled as `List (Option Nat)`: a slot holds `some v` when the
byte is initialized with value `v` and `none` when it is uninitialized.
Operations that can panic (slice-index assertions, the `assert!` in `append`)
are modelled with `Except`, where `.error s` carries the state at the moment of
the panic (all the modelled panics occur before any mutation, so that state is
the input state).
-/

namespace ReadBuf

/-- One byte slot of a storage region: `some v` if the byte is initialized. -/
abbrev Slot := Option Nat

/-- `definedAt l i` holds when slot `i` of `l` exists and is initialized. -/
def definedAt (l : List Slot) (i : Nat) : Bool :=
  match l[i]? with
  | some (some _) => true
  | _ => false

/-- Overwrite the bytes `[a, a + data.length)` of `l` with `data`
(the effect of `MaybeUninit::write_slice` into a subslice starting at `a`). -/
def writeBytes (l : List Slot) (a : Nat) (data : List Nat) : List Slot :=
  l.take a ++ data.map some ++ l.drop (a + data.length)

/-- Write the byte 0 into every slot of `l` from position `k` on
(the zeroing loop of `ensure_init`). -/
def zeroFrom (l : List Slot) (k : Nat) : List Slot :=
  l.take k ++ (l.drop k).map (fun _ => some 0)

/-- `BorrowBuf` from src/lib.rs: a storage region with the `filled` and
`initialized` counters. -/
structure BorrowBuf where
  buf : List Slot
  filled : Nat
  initialized : Nat
deriving DecidableEq, Repr

namespace BorrowBuf

/-- `impl From<&mut [u8]> for BorrowBuf`: fully initialized slice. -/
def fromSlice (s : List Nat) : BorrowBuf :=
  ⟨s.map some, 0, s.length⟩

/-- `impl From<&mut [MaybeUninit<u8>]> for BorrowBuf`: fully uninitialized. -/
def fromUninit (n : Nat) : BorrowBuf :=
  ⟨List.replicate n none, 0, 0⟩

/-- `BorrowBuf::capacity`. -/
def capacity (b : BorrowBuf) : Nat := b.buf.length

/-- `BorrowBuf::filled`: the region `buf[0..filled]` (as slots; under the
invariant every slot in it is initialized). -/
def filledView (b : BorrowBuf) : List Slot := b.buf.take b.filled

/-- `BorrowBuf::len`. -/
def len (b : BorrowBuf) : Nat := b.filled

/-- `BorrowBuf::init_len`. -/
def init_len (b : BorrowBuf) : Nat := b.initialized

/-- `BorrowBuf::clear`: `self.filled = 0`. -/
def clear (b : BorrowBuf) : BorrowBuf := { b with filled := 0 }

/-- `BorrowBuf::set_init`: `self.initialized = max(self.initialized, n)`. -/
def set_init (n : Nat) (b : BorrowBuf) : BorrowBuf :=
  { b with initialized := max b.initialized n }

end BorrowBuf

/- The operations of `BorrowCursor` from src/lib.rs. A cursor is a mutable
borrow of its `BorrowBuf`, so each operation is a function on `BorrowBuf`. -/
namespace BorrowCursor

/-- `BorrowCursor::capacity`: `buf.capacity() - buf.filled`. -/
def capacity (b : BorrowBuf) : Nat := b.buf.length - b.filled

/-- `BorrowCursor::init_ref`: the region `buf[filled..initialized]`. -/
def init_ref (b : BorrowBuf) : List Slot :=
  (b.buf.drop b.filled).take (b.initialized - b.filled)

/-- `BorrowCursor::uninit_mut` as a view: the region `buf[initialized..]`. -/
def uninitView (b : BorrowBuf) : List Slot := b.buf.drop b.initialized

/-- A write of byte `v` at index `i` of the buffer through the slice returned
by `BorrowCursor::as_mut` (index `i - filled` of that slice). -/
def writeSlot (b : BorrowBuf) (i : Nat) (v : Nat) : BorrowBuf :=
  { b with buf := b.buf.set i (some v) }

/-- `BorrowCursor::advance`:
`filled += n; initialized = max(initialized, filled)`. -/
def advance (n : Nat) (b : BorrowBuf) : BorrowBuf :=
  { b with filled := b.filled + n,
           initialized := max b.initialized (b.filled + n) }

/-- `BorrowCursor::ensure_init`: writes 0 into every byte of `uninit_mut()`
and sets `initialized = capacity`. -/
def ensure_init (b : BorrowBuf) : BorrowBuf :=
  { b with buf := zeroFrom b.buf b.initialized,
           initialized := b.buf.length }

/-- `BorrowCursor::set_init`:
`initialized = max(initialized, filled + n)`. -/
def set_init (n : Nat) (b : BorrowBuf) : BorrowBuf :=
  { b with initialized := max b.initialized (b.filled + n) }

/-- `BorrowCursor::append`: asserts `capacity() >= data.len()` (modelled as
`.error` carrying the untouched state, since the `assert!` precedes every
write), then copies `data` at `filled`, performs `set_init(data.len())`, and
adds `data.len()` to `filled`. -/
def append (b : BorrowBuf) (data : List Nat) : Except BorrowBuf BorrowBuf :=
  if data.length ≤ capacity b then
    .ok ⟨writeBytes b.buf b.filled data,
         b.filled + data.length,
         max b.initialized (b.filled + data.length)⟩
  else
    .error b

end BorrowCursor

/-- The `Vec<u8>` receiver of the `OwnedBuf` implementation in src/owned.rs:
`storage` is the allocation (`capacity` slots), `len` the vector's length.
Rust guarantees `len ≤ capacity` and that the first `len` bytes are
initialized. -/
structure VecU8 where
  storage : List Slot
  len : Nat
deriving DecidableEq, Repr

/-- `VecCursor` from src/owned.rs: the vector plus the cursor-local
`initialized` count (commented "relative to len of buf (not 0)") and `start`. -/
structure VecCursor where
  vec : VecU8
  initialized : Nat
  start : Nat
deriving DecidableEq, Repr

namespace VecU8

/-- `Vec::with_capacity(n)`: empty vector over `n` uninitialized slots. -/
def withCapacity (n : Nat) : VecU8 := ⟨List.replicate n none, 0⟩

/-- `<Vec<u8> as OwnedBuf>::capacity`. -/
def capacity (v : VecU8) : Nat := v.storage.length

/-- `<Vec<u8> as OwnedBuf>::init_len`: defined as `self.len()`. -/
def init_len (v : VecU8) : Nat := v.len

/-- `<Vec<u8> as OwnedBuf>::filled`: the first `len` bytes. -/
def filledView (v : VecU8) : List Slot := v.storage.take v.len

/-- `Vec::spare_capacity_mut`: the region `storage[len..capacity]`. -/
def spare (v : VecU8) : List Slot := v.storage.drop v.len

/-- `<Vec<u8> as OwnedBuf>::unfilled`:
`VecCursor { initialized: self.len(), start: self.len(), buf: self }`. -/
def unfilled (v : VecU8) : VecCursor := ⟨v, v.len, v.len⟩

/-- `<Vec<u8> as OwnedBuf>::clear`: `Vec::clear`, which sets `len = 0`
without touching the allocation's bytes. -/
def clear (v : VecU8) : VecU8 := { v with len := 0 }

/-- `<Vec<u8> as OwnedBuf>::set_init`: `self.set_len(max(len, n))`. -/
def set_init (n : Nat) (v : VecU8) : VecU8 :=
  { v with len := max v.len n }

end VecU8

namespace VecCursor

/-- `VecCursor::capacity`: `buf.capacity() - buf.len()`. -/
def capacity (c : VecCursor) : Nat := c.vec.storage.length - c.vec.len

/-- `VecCursor::written`: `buf.len() - start`. -/
def written (c : VecCursor) : Nat := c.vec.len - c.start

/-- `VecCursor::init_ref`: `spare_capacity_mut()[..initialized]`; Rust slicing
panics (`.error`) when `initialized` exceeds the spare region's length. -/
def init_ref (c : VecCursor) : Except Unit (List Slot) :=
  if c.initialized ≤ (VecU8.spare c.vec).length then
    .ok ((VecU8.spare c.vec).take c.initialized)
  else
    .error ()

/-- `VecCursor::uninit_mut` as a view: `spare_capacity_mut()[initialized..]`;
panics when `initialized` exceeds the spare region's length. -/
def uninitView (c : VecCursor) : Except Unit (List Slot) :=
  if c.initialized ≤ (VecU8.spare c.vec).length then
    .ok ((VecU8.spare c.vec).drop c.initialized)
  else
    .error ()

/-- `VecCursor::advance`: `buf.set_len(buf.len() + n)`. -/
def advance (n : Nat) (c : VecCursor) : VecCursor :=
  { c with vec := { c.vec with len := c.vec.len + n } }

/-- `VecCursor::ensure_init`: iterates over `uninit_mut()` (whose slicing
panics when `initialized > spare len`, modelled as `.error` with the untouched
state) writing 0, then sets the cursor's `initialized` to `buf.capacity()`. -/
def ensure_init (c : VecCursor) : Except VecCursor VecCursor :=
  if c.initialized ≤ (VecU8.spare c.vec).length then
    .ok ⟨⟨zeroFrom c.vec.storage (c.vec.len + c.initialized), c.vec.len⟩,
         c.vec.storage.length, c.start⟩
  else
    .error c

/-- `VecCursor::set_init`: `self.initialized = max(self.initialized, n)`. -/
def set_init (n : Nat) (c : VecCursor) : VecCursor :=
  { c with initialized := max c.initialized n }

/-- `VecCursor::append`: asserts `data.len() <= spare.len()` (modelled as
`.error` with the untouched state), writes `data` into
`spare[..data.len()]`, then `advance(data.len())`. -/
def append (c : VecCursor) (data : List Nat) : Except VecCursor VecCursor :=
  if data.length ≤ (VecU8.spare c.vec).length then
    .ok ⟨⟨writeBytes c.vec.storage c.vec.len data, c.vec.len + data.length⟩,
         c.initialized, c.start⟩
  else
    .error c

end VecCursor

/-- The counter invariant of a `BorrowBuf`:
`filled ≤ initialized ≤ capacity`. -/
def BorrowBuf.wf (b : BorrowBuf) : Prop :=
  b.filled ≤ b.initialized ∧ b.initialized ≤ b.buf.length

/-- The constructions of a `BorrowBuf` (the two `From` implementations). -/
inductive BInit : BorrowBuf → Prop where
  | fromSlice (s : List Nat) : BInit (BorrowBuf.fromSlice s)
  | fromUninit (n : Nat) : BInit (BorrowBuf.fromUninit n)

/-- One buffer or cursor operation on a `BorrowBuf`, with the caller-asserted
safety precondition of each `unsafe` operation as a hypothesis (phrased as the
definedness of the bytes the documentation requires to be initialized).
`append` steps only on its success path: a failed `append` panics, aborting
the sequence with the state untouched. -/
inductive BStep : BorrowBuf → BorrowBuf → Prop where
  | clear (b : BorrowBuf) : BStep b b.clear
  | bufSetInit (b : BorrowBuf) (n : Nat)
      (h : ∀ i, i < n → definedAt b.buf i = true) :
      BStep b (b.set_init n)
  | write (b : BorrowBuf) (i v : Nat) (h1 : b.filled ≤ i)
      (h2 : i < b.buf.length) :
      BStep b (BorrowCursor.writeSlot b i v)
  | advance (b : BorrowBuf) (n : Nat)
      (h : ∀ i, i < n → definedAt b.buf (b.filled + i) = true) :
      BStep b (BorrowCursor.advance n b)
  | ensureInit (b : BorrowBuf) : BStep b (BorrowCursor.ensure_init b)
  | curSetInit (b : BorrowBuf) (n : Nat)
      (h : ∀ i, i < n → definedAt b.buf (b.filled + i) = true) :
      BStep b (BorrowCursor.set_init n b)
  | appendOk (b b' : BorrowBuf) (data : List Nat)
      (h : BorrowCursor.append b data = .ok b') :
      BStep b b'

/-- A `BorrowBuf` state reachable from a construction by buffer and cursor
operations whose caller-asserted preconditions hold. -/
def BReachable (b : BorrowBuf) : Prop :=
  ∃ b0, BInit b0 ∧ Relation.ReflTransGen BStep b0 b

/-- The counter invariant of the `Vec<u8>` buffer: `len ≤ capacity`
(its reported `filled = len()`, `initialized = init_len() = len()`). -/
def VecU8.wf (v : VecU8) : Prop := v.len ≤ v.storage.length

/-- A well-formed Rust `Vec<u8>` handed to the library: its length is within
its capacity and its first `len` bytes are initialized. -/
def VecU8.rustWF (v : VecU8) : Prop :=
  v.len ≤ v.storage.length ∧ ∀ i, i < v.len → definedAt v.storage i = true

/-- One operation on the `Vec<u8>` buffer or its `VecCursor`, acting on the
state of the currently live cursor. Buffer-level operations (`clear`,
`set_init`, and plain re-acquisition) drop the cursor and obtain a fresh one
via `unfilled`. `handoff` over-approximates `VecCursor::clone` hand-offs: it
moves to a handle over the same vector with any cursor-local bookkeeping. -/
inductive VStep : VecCursor → VecCursor → Prop where
  | newCursor (c : VecCursor) : VStep c (VecU8.unfilled c.vec)
  | clear (c : VecCursor) : VStep c (VecU8.unfilled (VecU8.clear c.vec))
  | bufSetInit (c : VecCursor) (n : Nat)
      (h : ∀ i, i < n → definedAt c.vec.storage i = true) :
      VStep c (VecU8.unfilled (VecU8.set_init n c.vec))
  | write (c : VecCursor) (i v : Nat) (h1 : c.vec.len ≤ i)
      (h2 : i < c.vec.storage.length) :
      VStep c { c with vec := { c.vec with storage := c.vec.storage.set i (some v) } }
  | advance (c : VecCursor) (n : Nat)
      (h : ∀ i, i < n → definedAt c.vec.storage (c.vec.len + i) = true) :
      VStep c (VecCursor.advance n c)
  | ensureInit (c c' : VecCursor) (h : VecCursor.ensure_init c = .ok c') :
      VStep c c'
  | curSetInit (c : VecCursor) (n : Nat)
      (h : ∀ i, i < n → definedAt c.vec.storage (c.vec.len + i) = true) :
      VStep c (VecCursor.set_init n c)
  | appendOk (c c' : VecCursor) (data : List Nat)
      (h : VecCursor.append c data = .ok c') :
      VStep c c'
  | handoff (c : VecCursor) (i s : Nat) : VStep c ⟨c.vec, i, s⟩

/-- A `VecCursor` state reachable from a cursor over a well-formed `Vec<u8>`
by operations whose caller-asserted preconditions hold. -/
def VReachable (c : VecCursor) : Prop :=
  ∃ v0, VecU8.rustWF v0 ∧ Relation.ReflTransGen VStep (VecU8.unfilled v0) c

theorem definedAt_lt_length {l : List Slot} {i : Nat}
    (h : definedAt l i = true) : i < l.length := by
  by_contra hlt
  have : l[i]? = none := List.getElem?_eq_none (Nat.le_of_not_lt hlt)
  simp [definedAt, this] at h

theorem defined_range_le {l : List Slot} {a n : Nat}
    (h : ∀ i, i < n → definedAt l (a + i) = true) (h0 : 0 < n) :
    a + n ≤ l.length := by
  have := definedAt_lt_length (h (n - 1) (by omega))
  omega

theorem zeroFrom_length (l : List Slot) (k : Nat) :
    (zeroFrom l k).length = l.length := by
  simp [zeroFrom]
  omega

theorem writeBytes_length {l : List Slot} {a : Nat} {d : List Nat}
    (h : a + d.length ≤ l.length) :
    (writeBytes l a d).length = l.length := by
  simp [writeBytes]
  omega

theorem bstep_wf {b b' : BorrowBuf} (hs : BStep b b') (hw : b.wf) :
    b'.wf := by
  obtain ⟨h1, h2⟩ := hw
  cases hs with
  | clear => exact ⟨Nat.zero_le _, h2⟩
  | bufSetInit n h =>
    refine ⟨Nat.le_max_left _ _ |>.trans' h1, ?_⟩
    rcases Nat.eq_zero_or_pos n with h0 | h0
    · simp [BorrowBuf.set_init, h0]
      omega
    · have := defined_range_le (a := 0) (by simpa using h) h0
      simp [BorrowBuf.set_init]
      omega
  | write i v h1' h2' =>
    exact ⟨h1, by simpa [BorrowCursor.writeSlot] using h2⟩
  | advance n h =>
    rcases Nat.eq_zero_or_pos n with h0 | h0
    · subst h0
      constructor <;> simp [BorrowCursor.advance] <;> omega
    · have := defined_range_le h h0
      constructor <;> simp [BorrowCursor.advance] <;> omega
  | ensureInit =>
    constructor <;> simp [BorrowCursor.ensure_init, zeroFrom_length] <;> omega
  | curSetInit n h =>
    rcases Nat.eq_zero_or_pos n with h0 | h0
    · subst h0
      constructor <;> simp [BorrowCursor.set_init] <;> omega
    · have := defined_range_le h h0
      constructor <;> simp [BorrowCursor.set_init] <;> omega
  | appendOk b' data h =>
    simp only [BorrowCursor.append] at h
    split at h
    · rename_i hle
      rw [BorrowCursor.capacity] at hle
      cases h
      refine ⟨?_, ?_⟩
      · simp
      · have hlen : (writeBytes b.buf b.filled data).length = b.buf.length :=
          writeBytes_length (by omega)
        simp [hlen]
        omega
    · cases h

theorem breachable_wf {b : BorrowBuf} (h : BReachable b) : b.wf := by
  obtain ⟨b0, hinit, hsteps⟩ := h
  have h0 : b0.wf := by
    cases hinit with
    | fromSlice s => exact ⟨Nat.zero_le _, by simp [BorrowBuf.fromSlice]⟩
    | fromUninit n => exact ⟨Nat.le_refl _, Nat.zero_le _⟩
  induction hsteps with
  | refl => exact h0
  | tail _ hstep ih => exact bstep_wf hstep ih

theorem vstep_wf {c c' : VecCursor} (hs : VStep c c') (hw : c.vec.wf) :
    c'.vec.wf := by
  have hwl : c.vec.len ≤ c.vec.storage.length := hw
  cases hs with
  | newCursor => exact hw
  | clear => exact Nat.zero_le _
  | bufSetInit n h =>
    rcases Nat.eq_zero_or_pos n with h0 | h0
    · simp [VecU8.wf, VecU8.unfilled, VecU8.set_init, h0]
      omega
    · have := defined_range_le (a := 0) (by simpa using h) h0
      simp [VecU8.wf, VecU8.unfilled, VecU8.set_init]
      omega
  | write i v h1 h2 => simpa [VecU8.wf] using hw
  | advance n h =>
    rcases Nat.eq_zero_or_pos n with h0 | h0
    · subst h0
      simpa [VecU8.wf, VecCursor.advance] using hw
    · have := defined_range_le h h0
      simp [VecU8.wf, VecCursor.advance]
      omega
  | ensureInit c' h =>
    simp only [VecCursor.ensure_init] at h
    split at h
    · cases h
      simp [VecU8.wf, zeroFrom_length]
      exact hw
    · cases h
  | curSetInit n h => exact hw
  | appendOk c' data h =>
    simp only [VecCursor.append] at h
    split at h
    · rename_i hle
      rw [VecU8.spare, List.length_drop] at hle
      cases h
      have hlen : (writeBytes c.vec.storage c.vec.len data).length
          = c.vec.storage.length := writeBytes_length (by omega)
      simp [VecU8.wf, hlen]
      omega
    · cases h
  | handoff i s => exact hw

theorem vreachable_wf {c : VecCursor} (h : VReachable c) : c.vec.wf := by
  obtain ⟨v0, hinit, hsteps⟩ := h
  induction hsteps with
  | refl => exact hinit.1
  | tail _ hstep ih => exact vstep_wf hstep ih

theorem writeBytes_take_drop {l : List Slot} {a : Nat} {d : List Nat}
    (h : a ≤ l.length) :
    ((writeBytes l a d).take (a + d.length)).drop a = d.map some := by
  have hA : (l.take a).length = a := by simp [h]
  have hAM : (l.take a ++ d.map some).length = a + d.length := by simp [hA]
  rw [writeBytes, List.take_left' hAM, List.drop_left' hA]

/-- Claim C1: for every borrowed buffer, and every growable-store buffer with
a live cursor, in every state reachable by constructions and buffer/cursor
operations whose caller-asserted preconditions hold, the reported counters
satisfy `0 ≤ filled ≤ initialized ≤ capacity`. -/
theorem c1_counters_invariant :
    (∀ b : BorrowBuf, BReachable b →
      0 ≤ b.len ∧ b.len ≤ b.init_len ∧ b.init_len ≤ b.capacity) ∧
    (∀ c : VecCursor, VReachable c →
      0 ≤ c.vec.len ∧ c.vec.len ≤ c.vec.init_len ∧
        c.vec.init_len ≤ c.vec.capacity) := by
  constructor
  · intro b hb
    obtain ⟨h1, h2⟩ := breachable_wf hb
    exact ⟨Nat.zero_le _, h1, h2⟩
  · intro c hc
    exact ⟨Nat.zero_le _, Nat.le_refl _, vreachable_wf hc⟩

/-- Witness for C1 at a freshly constructed uninitialized `BorrowBuf` of
capacity 3 and a fresh cursor over `Vec::with_capacity(2)`. -/
theorem c1_counters_invariant_witness :
    (0 ≤ (BorrowBuf.fromUninit 3).len ∧
      (BorrowBuf.fromUninit 3).len ≤ (BorrowBuf.fromUninit 3).init_len ∧
      (BorrowBuf.fromUninit 3).init_len ≤ (BorrowBuf.fromUninit 3).capacity) ∧
    (0 ≤ (VecU8.unfilled (VecU8.withCapacity 2)).vec.len ∧
      (VecU8.unfilled (VecU8.withCapacity 2)).vec.len ≤
        (VecU8.unfilled (VecU8.withCapacity 2)).vec.init_len ∧
      (VecU8.unfilled (VecU8.withCapacity 2)).vec.init_len ≤
        (VecU8.unfilled (VecU8.withCapacity 2)).vec.capacity) :=
  ⟨c1_counters_invariant.1 _
     ⟨BorrowBuf.fromUninit 3, BInit.fromUninit 3, Relation.ReflTransGen.refl⟩,
   c1_counters_invariant.2 _
     ⟨VecU8.withCapacity 2,
      ⟨Nat.zero_le _, fun i hi => absurd hi (Nat.not_lt_zero i)⟩,
      Relation.ReflTransGen.refl⟩⟩

/-- Claim C3: for every cursor (borrowed or growable) and every `data` with
`cursor.capacity() ≥ data.length`, `append(data)` succeeds; afterward the
buffer's filled length has grown by exactly `data.length`, the trailing
`data.length` bytes of `filled()` are `data`, and `init_len` is at least the
old filled count plus `data.length`. -/
theorem c3_append_success :
    (∀ (b : BorrowBuf) (data : List Nat),
      b.filled ≤ b.buf.length →
      data.length ≤ BorrowCursor.capacity b →
      ∃ b', BorrowCursor.append b data = .ok b' ∧
        b'.len = b.len + data.length ∧
        b'.filledView.drop b.filled = data.map some ∧
        b.filled + data.length ≤ b'.init_len) ∧
    (∀ (c : VecCursor) (data : List Nat),
      c.vec.len ≤ c.vec.storage.length →
      data.length ≤ VecCursor.capacity c →
      ∃ c', VecCursor.append c data = .ok c' ∧
        c'.vec.len = c.vec.len + data.length ∧
        c'.vec.filledView.drop c.vec.len = data.map some ∧
        c.vec.len + data.length ≤ c'.vec.init_len) := by
  constructor
  · intro b data hwfb hcap
    refine ⟨⟨writeBytes b.buf b.filled data, b.filled + data.length,
      max b.initialized (b.filled + data.length)⟩, ?_, rfl, ?_, ?_⟩
    · unfold BorrowCursor.append
      rw [if_pos hcap]
    · exact writeBytes_take_drop hwfb
    · exact Nat.le_max_right _ _
  · intro c data hwfc hcap
    have hsp : (VecU8.spare c.vec).length = VecCursor.capacity c := by
      simp [VecU8.spare, VecCursor.capacity]
    refine ⟨⟨⟨writeBytes c.vec.storage c.vec.len data,
      c.vec.len + data.length⟩, c.initialized, c.start⟩, ?_, rfl, ?_, ?_⟩
    · unfold VecCursor.append
      rw [if_pos (by rw [hsp]; exact hcap)]
    · exact writeBytes_take_drop hwfc
    · exact Nat.le_refl _

/-- Witness for C3: appending `[5]` to a fresh uninitialized `BorrowBuf` of
capacity 2 and to a fresh cursor over `Vec::with_capacity(2)`. -/
theorem c3_append_success_witness :
    (∃ b', BorrowCursor.append (BorrowBuf.fromUninit 2) [5] = .ok b' ∧
      b'.len = (BorrowBuf.fromUninit 2).len + 1 ∧
      b'.filledView.drop (BorrowBuf.fromUninit 2).filled = [some 5] ∧
      (BorrowBuf.fromUninit 2).filled + 1 ≤ b'.init_len) ∧
    (∃ c', VecCursor.append (VecU8.unfilled (VecU8.withCapacity 2)) [5]
        = .ok c' ∧
      c'.vec.len = (VecU8.unfilled (VecU8.withCapacity 2)).vec.len + 1 ∧
      c'.vec.filledView.drop (VecU8.unfilled (VecU8.withCapacity 2)).vec.len
        = [some 5] ∧
      (VecU8.unfilled (VecU8.withCapacity 2)).vec.len + 1 ≤
        c'.vec.init_len) :=
  ⟨c3_append_success.1 (BorrowBuf.fromUninit 2) [5] (by decide) (by decide),
   c3_append_success.2 (VecU8.unfilled (VecU8.withCapacity 2)) [5]
     (by decide) (by decide)⟩

/-- Claim C4: for every cursor (borrowed or growable) and every `data` with
`cursor.capacity() < data.length`, `append(data)` fails on its capacity
assertion, and the buffer state at the panic is exactly the state before the
call (the assertion precedes every write, so there is no partial write). -/
theorem c4_append_capacity_panic :
    (∀ (b : BorrowBuf) (data : List Nat),
      BorrowCursor.capacity b < data.length →
      BorrowCursor.append b data = .error b) ∧
    (∀ (c : VecCursor) (data : List Nat),
      VecCursor.capacity c < data.length →
      VecCursor.append c data = .error c) := by
  constructor
  · intro b data hcap
    unfold BorrowCursor.append
    rw [if_neg (by omega)]
  · intro c data hcap
    have hsp : (VecU8.spare c.vec).length = VecCursor.capacity c := by
      simp [VecU8.spare, VecCursor.capacity]
    unfold VecCursor.append
    rw [if_neg (by rw [hsp]; omega)]

/-- Witness for C4: appending one byte to a zero-capacity `BorrowBuf` and to
a cursor over a zero-capacity vector. -/
theorem c4_append_capacity_panic_witness :
    BorrowCursor.append (BorrowBuf.fromUninit 0) [1]
      = .error (BorrowBuf.fromUninit 0) ∧
    VecCursor.append (VecU8.unfilled (VecU8.withCapacity 0)) [1]
      = .error (VecU8.unfilled (VecU8.withCapacity 0)) :=
  ⟨c4_append_capacity_panic.1 (BorrowBuf.fromUninit 0) [1] (by decide),
   c4_append_capacity_panic.2 (VecU8.unfilled (VecU8.withCapacity 0)) [1]
     (by decide)⟩

/-- Claim C2 (code bug): the claim says `init_len` never decreases, and in
particular `clear()` leaves it unchanged, for both buffer kinds — and the
`OwnedBuf::clear` documentation agrees ("The number of initialized bytes is
not changed"). But `<Vec<u8> as OwnedBuf>::init_len` is `self.len()` and
`clear` sets `len = 0`: on a vector of length 1, one `clear()` drops
`init_len` from 1 to 0. -/
theorem c2_vec_clear_drops_init_len :
    (VecU8.clear ⟨[some 7], 1⟩).init_len = 0 ∧
    (⟨[some 7], 1⟩ : VecU8).init_len = 1 :=
  ⟨rfl, rfl⟩

/-- Claim C5: `advance(n)`, under its caller-asserted precondition (the first
`n` bytes of the cursor's region are initialized, and `filled + n` is within
capacity), sets `filled` to `filled + n`, sets the initialized count to
`max(initialized, new filled)`, and changes nothing else, on both cursor
kinds. -/
theorem c5_advance_commits :
    (∀ (b : BorrowBuf) (n : Nat),
      (∀ i, i < n → definedAt b.buf (b.filled + i) = true) →
      b.filled + n ≤ b.capacity →
      (BorrowCursor.advance n b).filled = b.filled + n ∧
      (BorrowCursor.advance n b).initialized
        = max b.initialized (b.filled + n) ∧
      (BorrowCursor.advance n b).buf = b.buf) ∧
    (∀ (c : VecCursor) (n : Nat),
      (∀ i, i < n → definedAt c.vec.storage (c.vec.len + i) = true) →
      c.vec.len + n ≤ c.vec.capacity →
      (VecCursor.advance n c).vec.len = c.vec.len + n ∧
      (VecCursor.advance n c).vec.init_len
        = max c.vec.init_len (c.vec.len + n) ∧
      (VecCursor.advance n c).vec.storage = c.vec.storage ∧
      (VecCursor.advance n c).initialized = c.initialized ∧
      (VecCursor.advance n c).start = c.start) := by
  constructor
  · intro b n _ _
    exact ⟨rfl, rfl, rfl⟩
  · intro c n _ _
    refine ⟨rfl, ?_, rfl, rfl, rfl⟩
    simp [VecCursor.advance, VecU8.init_len]

/-- Witness for C5: advancing by 1 over a fully initialized `BorrowBuf` of
capacity 2, and over a vector of length 1 whose spare byte has been defined. -/
theorem c5_advance_commits_witness :
    ((BorrowCursor.advance 1 (BorrowBuf.fromSlice [3, 4])).filled
        = (BorrowBuf.fromSlice [3, 4]).filled + 1 ∧
      (BorrowCursor.advance 1 (BorrowBuf.fromSlice [3, 4])).initialized
        = max (BorrowBuf.fromSlice [3, 4]).initialized
            ((BorrowBuf.fromSlice [3, 4]).filled + 1) ∧
      (BorrowCursor.advance 1 (BorrowBuf.fromSlice [3, 4])).buf
        = (BorrowBuf.fromSlice [3, 4]).buf) ∧
    ((VecCursor.advance 1 ⟨⟨[some 3, some 4], 1⟩, 0, 1⟩).vec.len
        = (⟨[some 3, some 4], 1⟩ : VecU8).len + 1 ∧
      (VecCursor.advance 1 ⟨⟨[some 3, some 4], 1⟩, 0, 1⟩).vec.init_len
        = max (⟨[some 3, some 4], 1⟩ : VecU8).init_len
            ((⟨[some 3, some 4], 1⟩ : VecU8).len + 1) ∧
      (VecCursor.advance 1 ⟨⟨[some 3, some 4], 1⟩, 0, 1⟩).vec.storage
        = [some 3, some 4] ∧
      (VecCursor.advance 1 ⟨⟨[some 3, some 4], 1⟩, 0, 1⟩).initialized = 0 ∧
      (VecCursor.advance 1 ⟨⟨[some 3, some 4], 1⟩, 0, 1⟩).start = 1) :=
  ⟨c5_advance_commits.1 (BorrowBuf.fromSlice [3, 4]) 1
     (by decide) (by decide),
   c5_advance_commits.2 ⟨⟨[some 3, some 4], 1⟩, 0, 1⟩ 1
     (by decide) (by decide)⟩

/-- Claim C6 (code bug): the claim says one `ensure_init()` brings the
initialized count to capacity and a second call completes and changes
nothing. `BorrowCursor::ensure_init` does; but on a `VecCursor` over a
vector of length 1 with capacity 2, the first call zero-writes nothing (its
`uninit_mut` is `spare[len..]`, past the whole 1-byte spare region), leaves
`init_len` at 1 < 2, and sets the cursor field to `capacity() = 2`; the
second call then panics, because `uninit_mut` slices `spare[2..]` on the
1-byte spare region. -/
theorem c6_vec_ensure_init_not_idempotent :
    VecCursor.ensure_init (VecU8.unfilled ⟨[some 7, none], 1⟩)
      = .ok ⟨⟨[some 7, none], 1⟩, 2, 1⟩ ∧
    (⟨⟨[some 7, none], 1⟩, 2, 1⟩ : VecCursor).vec.init_len = 1 ∧
    (⟨⟨[some 7, none], 1⟩, 2, 1⟩ : VecCursor).vec.capacity = 2 ∧
    VecCursor.ensure_init (⟨⟨[some 7, none], 1⟩, 2, 1⟩ : VecCursor)
      = .error ⟨⟨[some 7, none], 1⟩, 2, 1⟩ :=
  ⟨rfl, rfl, rfl, rfl⟩

/-- Claim C7 (code bug): the claim says `clear()` zeroes `filled`, empties
`filled()`, and leaves `init_len`, capacity and storage unchanged, for both
buffer kinds. On `Vec<u8>` everything holds except the `init_len` part:
clearing a vector of length 2 and capacity 3 keeps capacity 3 and the stored
bytes, but `init_len` falls from 2 to 0 (it is defined as `len()`),
contradicting the trait documentation of `clear`. -/
theorem c7_vec_clear_changes_init_len :
    (VecU8.clear ⟨[some 3, some 4, none], 2⟩).len = 0 ∧
    (VecU8.clear ⟨[some 3, some 4, none], 2⟩).filledView = [] ∧
    (VecU8.clear ⟨[some 3, some 4, none], 2⟩).capacity = 3 ∧
    (VecU8.clear ⟨[some 3, some 4, none], 2⟩).storage
      = [some 3, some 4, none] ∧
    (⟨[some 3, some 4, none], 2⟩ : VecU8).init_len = 2 ∧
    (VecU8.clear ⟨[some 3, some 4, none], 2⟩).init_len = 0 :=
  ⟨rfl, rfl, rfl, rfl, rfl, rfl⟩

/-- Claim C8 (code bug): the claim says a fresh cursor from `unfilled()` has
its local initialized baseline equal to the store's length, an empty
`init_ref`, and `init_len == len`. The first and third parts hold, but
`init_ref` is `spare_capacity_mut()[..initialized]` with `initialized`
created as `self.len()` — on a vector of length 1 with capacity 2 the fresh
cursor's `init_ref` is one byte long (and exposes the undefined spare byte),
not empty, contradicting the field's "relative to len of buf" comment. -/
theorem c8_fresh_cursor_init_ref_not_empty :
    (VecU8.unfilled ⟨[some 9, none], 1⟩).initialized
      = (⟨[some 9, none], 1⟩ : VecU8).len ∧
    (⟨[some 9, none], 1⟩ : VecU8).init_len
      = (⟨[some 9, none], 1⟩ : VecU8).len ∧
    VecCursor.init_ref (VecU8.unfilled ⟨[some 9, none], 1⟩)
      = .ok [none] :=
  ⟨rfl, rfl, rfl⟩

/-- Claim C9 counterexample: the claim says cursor-level `set_init(n)` sets
the buffer's initialized count (`init_len`) to `max(old initialized,
filled + n)`, but `VecCursor::set_init` only updates the cursor-local field
and leaves `init_len` (which is `len()`) untouched. On a fresh cursor over a
vector of length 1 with capacity 2 whose spare byte is already defined, the
claim's preconditions hold, yet after `set_init(1)` the buffer's `init_len`
is still 1 while the claim demands `max(1, 1 + 1) = 2`. -/
theorem c9_vec_set_init_leaves_init_len :
    definedAt [some 3, some 4]
        ((⟨[some 3, some 4], 1⟩ : VecU8).len + 0) = true ∧
    (⟨[some 3, some 4], 1⟩ : VecU8).len + 1
      ≤ (⟨[some 3, some 4], 1⟩ : VecU8).capacity ∧
    (VecCursor.set_init 1
        (VecU8.unfilled ⟨[some 3, some 4], 1⟩)).vec.init_len = 1 ∧
    max (VecU8.unfilled ⟨[some 3, some 4], 1⟩).vec.init_len
        ((⟨[some 3, some 4], 1⟩ : VecU8).len + 1) = 2 :=
  ⟨rfl, by decide, rfl, rfl⟩

/-- Claim C9 (amended): cursor-level `set_init(n)`, under its caller-asserted
precondition (the first `n` unfilled bytes are already defined and
`filled + n` is within capacity), writes no byte of storage and touches
neither `filled` nor the capacity; on a `BorrowCursor` it sets the buffer's
initialized count to `max(initialized, filled + n)`, while on a `VecCursor`
it only raises the cursor-local field to `max(field, n)` and leaves the
buffer's initialized count (`init_len`) unchanged. -/
theorem c9_cursor_set_init :
    (∀ (b : BorrowBuf) (n : Nat),
      (∀ i, i < n → definedAt b.buf (b.filled + i) = true) →
      b.filled + n ≤ b.capacity →
      (BorrowCursor.set_init n b).initialized
        = max b.initialized (b.filled + n) ∧
      (BorrowCursor.set_init n b).filled = b.filled ∧
      (BorrowCursor.set_init n b).buf = b.buf) ∧
    (∀ (c : VecCursor) (n : Nat),
      (∀ i, i < n → definedAt c.vec.storage (c.vec.len + i) = true) →
      c.vec.len + n ≤ c.vec.capacity →
      (VecCursor.set_init n c).initialized = max c.initialized n ∧
      (VecCursor.set_init n c).vec.init_len = c.vec.init_len ∧
      (VecCursor.set_init n c).vec = c.vec ∧
      (VecCursor.set_init n c).start = c.start) := by
  constructor
  · intro b n _ _
    exact ⟨rfl, rfl, rfl⟩
  · intro c n _ _
    exact ⟨rfl, rfl, rfl, rfl⟩

/-- Witness for C9 (amended): `set_init(1)` over a fully initialized
`BorrowBuf` of capacity 2, and over a fresh cursor on a vector of length 1
whose spare byte has been defined. -/
theorem c9_cursor_set_init_witness :
    ((BorrowCursor.set_init 1 (BorrowBuf.fromSlice [3, 4])).initialized
        = max (BorrowBuf.fromSlice [3, 4]).initialized
            ((BorrowBuf.fromSlice [3, 4]).filled + 1) ∧
      (BorrowCursor.set_init 1 (BorrowBuf.fromSlice [3, 4])).filled
        = (BorrowBuf.fromSlice [3, 4]).filled ∧
      (BorrowCursor.set_init 1 (BorrowBuf.fromSlice [3, 4])).buf
        = (BorrowBuf.fromSlice [3, 4]).buf) ∧
    ((VecCursor.set_init 1 (VecU8.unfilled ⟨[some 3, some 4], 1⟩)).initialized
        = max (VecU8.unfilled ⟨[some 3, some 4], 1⟩).initialized 1 ∧
      (VecCursor.set_init 1
          (VecU8.unfilled ⟨[some 3, some 4], 1⟩)).vec.init_len
        = (VecU8.unfilled ⟨[some 3, some 4], 1⟩).vec.init_len ∧
      (VecCursor.set_init 1 (VecU8.unfilled ⟨[some 3, some 4], 1⟩)).vec
        = (VecU8.unfilled ⟨[some 3, some 4], 1⟩).vec ∧
      (VecCursor.set_init 1 (VecU8.unfilled ⟨[some 3, some 4], 1⟩)).start
        = (VecU8.unfilled ⟨[some 3, some 4], 1⟩).start) :=
  ⟨c9_cursor_set_init.1 (BorrowBuf.fromSlice [3, 4]) 1
     (by decide) (by decide),
   c9_cursor_set_init.2 (VecU8.unfilled ⟨[some 3, some 4], 1⟩) 1
     (by decide) (by decide)⟩

/-- Claim C10: appending an empty slice always succeeds (the capacity
assertion compares against 0) and is an identity on the buffer: counters and
storage are unchanged. On a `BorrowBuf` this uses the invariant
`filled ≤ initialized` (so that `set_init(0)`, i.e.
`max(initialized, filled)`, is `initialized`); on a `VecCursor` it is
unconditional. -/
theorem c10_append_empty_identity :
    (∀ b : BorrowBuf, b.filled ≤ b.initialized →
      BorrowCursor.append b [] = .ok b) ∧
    (∀ c : VecCursor, VecCursor.append c [] = .ok c) := by
  constructor
  · intro b h
    simp [BorrowCursor.append, writeBytes, Nat.max_eq_left h]
  · intro c
    simp [VecCursor.append, writeBytes]

/-- Witness for C10: an empty append on a half-filled initialized
`BorrowBuf`. -/
theorem c10_append_empty_identity_witness :
    BorrowCursor.append ⟨[some 1, some 2], 1, 2⟩ []
      = .ok ⟨[some 1, some 2], 1, 2⟩ :=
  c10_append_empty_identity.1 ⟨[some 1, some 2], 1, 2⟩ (by decide)

end ReadBuf
